import Mathlib

/-!
Verification of the watchdog lifecycle manager in `patroni/watchdog/base.py`.

The manager (`Watchdog`) owns one device implementation at a time, derives a
safe watchdog timeout from the configuration snapshot (`WatchdogConfig`), and
reconciles configuration changes at `keepalive` time.  Devices are modelled as
arbitrary state machines over an abstract internal state: each operation either
completes with a new internal state or fails (a Python `WatchdogError`, the
only exception the device contract permits).  Every externally observable
effect (device operation invocations, log calls, which reconciliation branch
in `keepalive` was entered) is recorded in an event trace so that frame and
counting properties can be stated.  Device objects carry a `tag` modelling
Python object identity, so "a close of the old device" is expressible.
-/

namespace PatroniWatchdog

/-- Watchdog operating mode: `MODE_REQUIRED`, `MODE_AUTOMATIC`, `MODE_OFF`. -/
inductive Mode
  | required
  | automatic
  | off
deriving DecidableEq

/-- Snapshot of watchdog configuration (`WatchdogConfig` in the source).
Construction from the raw configuration mapping (`parse_mode`, defaulting) is
out of scope here; claims quantify over already-built snapshots.  Driver
configuration is modelled as an association list with structural equality,
matching the structural dict equality used by `WatchdogConfig.__eq__`. -/
structure WatchdogConfig where
  mode : Mode
  ttl : Int
  loop_wait : Int
  safety_margin : Int
  driver : String
  driver_config : List (String × String)
deriving DecidableEq

/-- `WatchdogConfig.timeout`: `ttl // 2` (Python floor division) when
`safety_margin` is the `-1` sentinel, otherwise `ttl - safety_margin`. -/
def WatchdogConfig.timeout (c : WatchdogConfig) : Int :=
  if c.safety_margin = -1 then Int.fdiv c.ttl 2 else c.ttl - c.safety_margin

/-- `WatchdogConfig.timing_slack`: `timeout - loop_wait`. -/
def WatchdogConfig.timing_slack (c : WatchdogConfig) : Int :=
  c.timeout - c.loop_wait

/-- Severity of a log call. -/
inductive LogLevel
  | debug
  | info
  | warning
  | error
deriving DecidableEq

/-- Identifiers for the distinct log messages of `base.py` (the exact text is
not part of the contract, the emitting branch is). -/
inductive Msg
  | slackTooSmall
  | couldNotActivate
  | cantBeDisabled
  | requiredNotConfigured
  | requiredUnsafeTimeout
  | unsafeTimeoutAuto
  | activated
  | requiredNotActivated
  | loopWaitTooLong
  | disablingUnsafe
  | rebootSoon
  | errorDisabling
  | updatedTimeout
  | errorKeepalive
deriving DecidableEq

/-- Observable events: device operation invocations (recorded at the moment the
operation is invoked, whether or not it then raises), device construction via
`get_impl`, log calls, and which reconciliation branch of `keepalive` was
entered.  Device events carry the device's identity tag and its `is_null`
flag. -/
inductive Event
  | devOpen (tag : Nat) (isNull : Bool)
  | devClose (tag : Nat) (isNull : Bool)
  | devKeepalive (tag : Nat) (isNull : Bool)
  | devSetTimeout (tag : Nat) (isNull : Bool) (t : Int)
  | devGetTimeout (tag : Nat) (isNull : Bool)
  | construct (driver : String)
  | log (lvl : LogLevel) (msg : Msg)
  | branchOffToOn
  | branchDriverChange
  | branchTimeoutChange
deriving DecidableEq

/-- Abstract internal state of a device. -/
abbrev DevSt := Nat

/-- Behaviour of a device implementation: the capability set of the
`WatchdogBase` contract.  Each mutating operation either completes with a new
internal state or raises a `WatchdogError` (`Except.error ()`); a failing
operation leaves the internal state unchanged. -/
structure DeviceBehavior where
  is_running : DevSt → Bool
  is_healthy : DevSt → Bool
  can_be_disabled : DevSt → Bool
  has_set_timeout : DevSt → Bool
  openOp : DevSt → Except Unit DevSt
  closeOp : DevSt → Except Unit DevSt
  keepaliveOp : DevSt → Except Unit DevSt
  set_timeoutOp : Int → DevSt → Except Unit DevSt
  get_timeoutOp : DevSt → Except Unit Int

/-- A device object: identity tag (Python object identity), the class-level
`is_null` flag, its behaviour and its current internal state. -/
structure Device where
  tag : Nat
  is_null : Bool
  beh : DeviceBehavior
  st : DevSt

def Device.is_running (d : Device) : Bool := d.beh.is_running d.st

def Device.is_healthy (d : Device) : Bool := d.beh.is_healthy d.st

def Device.can_be_disabled (d : Device) : Bool := d.beh.can_be_disabled d.st

def Device.has_set_timeout (d : Device) : Bool := d.beh.has_set_timeout d.st

def Device.openCall (d : Device) : Except Unit Device :=
  (d.beh.openOp d.st).map fun s => { d with st := s }

def Device.closeCall (d : Device) : Except Unit Device :=
  (d.beh.closeOp d.st).map fun s => { d with st := s }

def Device.keepaliveCall (d : Device) : Except Unit Device :=
  (d.beh.keepaliveOp d.st).map fun s => { d with st := s }

def Device.set_timeoutCall (d : Device) (t : Int) : Except Unit Device :=
  (d.beh.set_timeoutOp t d.st).map fun s => { d with st := s }

def Device.get_timeoutCall (d : Device) : Except Unit Int :=
  d.beh.get_timeoutOp d.st

/-- Behaviour of `NullWatchdog`: `is_running`/`is_healthy` are `False`,
`can_be_disabled` is `True` (inherited), `open`/`close`/`keepalive` are no-ops,
`get_timeout` returns `1000000000`, `has_set_timeout` is `False` (inherited)
and `set_timeout` raises `WatchdogError` (inherited from `WatchdogBase`). -/
def nullBehavior : DeviceBehavior where
  is_running := fun _ => false
  is_healthy := fun _ => false
  can_be_disabled := fun _ => true
  has_set_timeout := fun _ => false
  openOp := fun s => .ok s
  closeOp := fun s => .ok s
  keepaliveOp := fun s => .ok s
  set_timeoutOp := fun _ _ => .error ()
  get_timeoutOp := fun _ => .ok 1000000000

/-- The `NullWatchdog` device, with identity tag `0`. -/
def NullWatchdog : Device := ⟨0, true, nullBehavior, 0⟩

/-- The device factory boundary: `WatchdogConfig.get_impl` resolves
`(driver, driver_config, platform)` to a device object (possibly a null
device when the driver is not viable on the platform).  Construction has no
side effect beyond creating the object. -/
structure Env where
  factory : String → List (String × String) → Device

/-- `WatchdogConfig.get_impl`: constructs (does not open) the selected device;
emits a `construct` event. -/
def WatchdogConfig.get_impl (c : WatchdogConfig) (env : Env) : Device × List Event :=
  (env.factory c.driver c.driver_config, [Event.construct c.driver])

/-- The `Watchdog` manager state: latest snapshot, snapshot in effect at the
last (re)arming, the `active` intent flag, and the owned device. -/
structure Watchdog where
  config : WatchdogConfig
  active_config : WatchdogConfig
  active : Bool
  impl : Device

/-- `Watchdog._set_timeout` (lines 176-190): apply the configured timeout when
supported, read back the achieved timeout, and degrade to the null device when
a running device's timeout is below `loop_wait` and it can be disabled.
Returns the outcome (`Except.error ()` when a `WatchdogError` propagates to
the caller, `Except.ok none` for Python `None`), the device as left behind,
and the emitted events. -/
def Watchdog._set_timeout (w : Watchdog) :
    Except Unit (Option Int) × Device × List Event :=
  let applied : Except Unit Device × List Event :=
    if w.impl.has_set_timeout then
      (w.impl.set_timeoutCall w.config.timeout,
        [Event.devSetTimeout w.impl.tag w.impl.is_null w.config.timeout])
    else (.ok w.impl, [])
  match applied with
  | (.error _, ev1) => (.error (), w.impl, ev1)
  | (.ok d1, ev1) =>
    let ev2 := [Event.devGetTimeout d1.tag d1.is_null]
    match d1.get_timeoutCall with
    | .error _ => (.error (), d1, ev1 ++ ev2)
    | .ok actual =>
      if d1.is_running && decide (actual < w.config.loop_wait) then
        let ev3 := [Event.log .error .loopWaitTooLong]
        if d1.can_be_disabled then
          let ev4 := [Event.log .info .disablingUnsafe,
                      Event.devClose d1.tag d1.is_null]
          match d1.closeCall with
          | .error _ => (.error (), d1, ev1 ++ ev2 ++ ev3 ++ ev4)
          | .ok _ => (.ok none, NullWatchdog, ev1 ++ ev2 ++ ev3 ++ ev4)
        else
          (.ok (some actual), d1, ev1 ++ ev2 ++ ev3)
      else
        (.ok (some actual), d1, ev1 ++ ev2)

/-- Lines 166-174 of `_activate`: the success log when the device is running,
otherwise the Required-mode failure return. -/
def activateTail (w : Watchdog) (actual : Option Int) (evs : List Event) :
    Bool × Watchdog × Option Int × List Event :=
  if w.impl.is_running then
    (true, w, actual, evs ++ [Event.log .info .activated])
  else if w.config.mode = .required then
    (false, w, actual, evs ++ [Event.log .error .requiredNotActivated])
  else
    (true, w, actual, evs)

/-- Lines 148-174 of `_activate`: warn about a running non-disableable device,
then the safety check `not is_running or (actual_timeout and actual_timeout >
timeout)` — note the Python truthiness of `actual_timeout`: `None` and `0`
both make the second disjunct falsy — followed by the tail. -/
def activateCheck (w : Watchdog) (actual : Option Int) (evs : List Event) :
    Bool × Watchdog × Option Int × List Event :=
  let evs := evs ++
    (if w.impl.is_running && !w.impl.can_be_disabled then
      [Event.log .warning .cantBeDisabled] else [])
  let truthyExceeds : Bool :=
    match actual with
    | none => false
    | some v => !(decide (v = 0)) && decide (w.config.timeout < v)
  if !w.impl.is_running || truthyExceeds then
    if w.config.mode = .required then
      (false, w, actual,
        evs ++ [Event.log .error
          (if w.impl.is_null then .requiredNotConfigured else .requiredUnsafeTimeout)])
    else
      activateTail w actual
        (evs ++ (if !w.impl.is_null then [Event.log .warning .unsafeTimeoutAuto] else []))
  else
    activateTail w actual evs

/-- Lines 132-146 of `_activate`: snapshot `active_config`, force the null
device when `timing_slack < 0`, then try `open()` and `_set_timeout()`,
falling back to the null device on `WatchdogError` (logged at warning level in
Required mode, else debug), reading `actual_timeout` back from the fresh null
device. -/
def activateOpen (w : Watchdog) : Watchdog × Option Int × List Event :=
  let w := { w with active_config := w.config }
  let (w, ev0) :=
    if w.config.timing_slack < 0 then
      ({ w with impl := NullWatchdog }, [Event.log .warning .slackTooSmall])
    else (w, [])
  let evOpen := [Event.devOpen w.impl.tag w.impl.is_null]
  match w.impl.openCall with
  | .error _ =>
    let lvl := if w.config.mode = .required then LogLevel.warning else LogLevel.debug
    ({ w with impl := NullWatchdog }, some 1000000000,
      ev0 ++ evOpen ++ [Event.log lvl .couldNotActivate, Event.devGetTimeout 0 true])
  | .ok d1 =>
    match Watchdog._set_timeout { w with impl := d1 } with
    | (.error _, _, evs) =>
      let lvl := if w.config.mode = .required then LogLevel.warning else LogLevel.debug
      ({ w with impl := NullWatchdog }, some 1000000000,
        ev0 ++ evOpen ++ evs ++ [Event.log lvl .couldNotActivate, Event.devGetTimeout 0 true])
    | (.ok act, d2, evs) =>
      ({ w with impl := d2 }, act, ev0 ++ evOpen ++ evs)

/-- `Watchdog._activate` (lines 131-174).  In addition to the Python return
value (the leading `Bool`) the translation exposes the final manager state,
the `actual_timeout` local as a ghost observation, and the event trace. -/
def Watchdog._activate (w : Watchdog) : Bool × Watchdog × Option Int × List Event :=
  let r := activateOpen w
  activateCheck r.1 r.2.1 r.2.2

/-- `Watchdog.activate` (lines 121-129): set the `active` flag, then run the
activation sequence. -/
def Watchdog.activate (w : Watchdog) : Bool × Watchdog × Option Int × List Event :=
  Watchdog._activate { w with active := true }

/-- `Watchdog._disable` (lines 197-206): when the device is running and cannot
be disabled, send one final keepalive and warn (the warning formats
`get_timeout()`), then close; a `WatchdogError` anywhere is caught and logged
at error level. -/
def Watchdog._disable (w : Watchdog) : Watchdog × List Event :=
  if w.impl.is_running && !w.impl.can_be_disabled then
    let evK := [Event.devKeepalive w.impl.tag w.impl.is_null]
    match w.impl.keepaliveCall with
    | .error _ => (w, evK ++ [Event.log .error .errorDisabling])
    | .ok d1 =>
      let evG := [Event.devGetTimeout d1.tag d1.is_null]
      match d1.get_timeoutCall with
      | .error _ => ({ w with impl := d1 }, evK ++ evG ++ [Event.log .error .errorDisabling])
      | .ok _ =>
        let evC := [Event.log .warning .rebootSoon, Event.devClose d1.tag d1.is_null]
        match d1.closeCall with
        | .error _ => ({ w with impl := d1 }, evK ++ evG ++ evC ++ [Event.log .error .errorDisabling])
        | .ok d2 => ({ w with impl := d2 }, evK ++ evG ++ evC)
  else
    let evC := [Event.devClose w.impl.tag w.impl.is_null]
    match w.impl.closeCall with
    | .error _ => (w, evC ++ [Event.log .error .errorDisabling])
    | .ok d1 => ({ w with impl := d1 }, evC)

/-- `Watchdog.disable` (lines 192-195). -/
def Watchdog.disable (w : Watchdog) : Watchdog × List Event :=
  let r := w._disable
  ({ r.1 with active := false }, r.2)

/-- `Watchdog.reload_config` (lines 104-119), taking the freshly built
snapshot.  Turning the watchdog off is applied immediately (disable sequence
plus swap to the null device); when not active, a driver change is applied
immediately; otherwise changes wait for the next `keepalive`. -/
def Watchdog.reload_config (w : Watchdog) (env : Env) (c : WatchdogConfig) :
    Watchdog × List Event :=
  let w := { w with config := c }
  let step1 : Watchdog × List Event :=
    if w.config.mode = .off then
      let r := if w.active then w._disable else (w, [])
      ({ r.1 with active_config := r.1.config, impl := NullWatchdog }, r.2)
    else (w, [])
  let w := step1.1
  if !w.active then
    let step2 : Watchdog × List Event :=
      if w.config.driver ≠ w.active_config.driver ∨
         w.config.driver_config ≠ w.active_config.driver_config then
        let r := w.config.get_impl env
        ({ w with impl := r.1 }, r.2)
      else (w, [])
    ({ step2.1 with active_config := step2.1.config }, step1.2 ++ step2.2)
  else
    (w, step1.2)

/-- Branch (a) of the reconciliation in `keepalive` (lines 215-217): mode went
Off to non-Off while active: re-select the device and re-run the activation
sequence. -/
def Watchdog.reconcileA (w : Watchdog) (env : Env) : Watchdog × List Event :=
  if w.config.mode ≠ .off ∧ w.active_config.mode = .off then
    let r := w.config.get_impl env
    let a := Watchdog._activate { w with impl := r.1 }
    (a.2.1, [Event.branchOffToOn] ++ r.2 ++ a.2.2.2)
  else (w, [])

/-- Branch (b) of the reconciliation in `keepalive` (lines 218-222): driver or
driver configuration changed: disable the old device, re-select, re-run the
activation sequence. -/
def Watchdog.reconcileB (w : Watchdog) (env : Env) : Watchdog × List Event :=
  if w.config.driver ≠ w.active_config.driver ∨
     w.config.driver_config ≠ w.active_config.driver_config then
    let d := w._disable
    let r := w.config.get_impl env
    let a := Watchdog._activate { d.1 with impl := r.1 }
    (a.2.1, [Event.branchDriverChange] ++ d.2 ++ r.2 ++ a.2.2.2)
  else (w, [])

/-- Branch (c) of the reconciliation in `keepalive` (lines 223-228): computed
timeout changed: `set_timeout` in place (the success log reads the achieved
timeout back), then record `active_config := config` (line 228, also run when
no branch fired; skipped when a `WatchdogError` was raised). -/
def Watchdog.reconcileC (w : Watchdog) : Except Unit Unit × Watchdog × List Event :=
  if w.config.timeout ≠ w.active_config.timeout then
    let evT := [Event.branchTimeoutChange,
                Event.devSetTimeout w.impl.tag w.impl.is_null w.config.timeout]
    match w.impl.set_timeoutCall w.config.timeout with
    | .error _ => (.error (), w, evT)
    | .ok d =>
      let w2 := { w with impl := d }
      if w2.impl.is_running then
        let evG := [Event.devGetTimeout w2.impl.tag w2.impl.is_null]
        match w2.impl.get_timeoutCall with
        | .error _ => (.error (), w2, evT ++ evG)
        | .ok _ =>
          (.ok (), { w2 with active_config := w2.config },
            evT ++ evG ++ [Event.log .info .updatedTimeout])
      else (.ok (), { w2 with active_config := w2.config }, evT)
  else (.ok (), { w with active_config := w.config }, [])

/-- The body of `Watchdog.keepalive` (the `try` block, lines 210-228): send
the keepalive when active, then, when active and the snapshot changed,
reconcile in order via the three branches.  The leading component is
`Except.error ()` when a `WatchdogError` escapes the block; the state and
trace reflect everything done before the raise. -/
def Watchdog.keepaliveBody (w : Watchdog) (env : Env) :
    Except Unit Unit × Watchdog × List Event :=
  let step1 : Except Unit Watchdog × List Event :=
    if w.active then
      ((w.impl.keepaliveCall).map fun d => { w with impl := d },
        [Event.devKeepalive w.impl.tag w.impl.is_null])
    else (.ok w, [])
  match step1 with
  | (.error _, ev1) => (.error (), w, ev1)
  | (.ok w1, ev1) =>
    if w1.active ∧ w1.config ≠ w1.active_config then
      let a := w1.reconcileA env
      let b := a.1.reconcileB env
      let c := b.1.reconcileC
      (c.1, c.2.1, ev1 ++ a.2 ++ b.2 ++ c.2.2)
    else (.ok (), w1, ev1)

/-- `Watchdog.keepalive` (lines 208-230): run the body; a `WatchdogError` is
caught and logged at error level. -/
def Watchdog.keepalive (w : Watchdog) (env : Env) : Watchdog × List Event :=
  match w.keepaliveBody env with
  | (.ok _, w1, evs) => (w1, evs)
  | (.error _, w1, evs) => (w1, evs ++ [Event.log .error .errorKeepalive])

/-- `Watchdog.keepalive` viewed at the caller boundary: `Except.error` would
mean an exception escaping to the caller of the method. -/
def Watchdog.keepaliveM (w : Watchdog) (env : Env) :
    Except Unit (Watchdog × List Event) :=
  match w.keepaliveBody env with
  | (.ok _, w1, evs) => .ok (w1, evs)
  | (.error _, w1, evs) => .ok (w1, evs ++ [Event.log .error .errorKeepalive])

/-- Outcome of constructing a `Watchdog`: either the process exits (the
constructor does not return) or the manager state is produced, together with
the construction's event trace. -/
inductive InitResult
  | exited (code : Nat)
  | ok (w : Watchdog) (evs : List Event)
deriving Nonempty

/-- `Watchdog.__init__` (lines 90-102): mode Off installs the null device
without consulting the factory; otherwise the device is selected via
`get_impl`, and when mode is Required but the selection is a null device the
process exits with status 1 (`sys.exit(1)`). -/
def Watchdog.init (env : Env) (c : WatchdogConfig) : InitResult :=
  if c.mode = .off then
    .ok ⟨c, c, false, NullWatchdog⟩ []
  else
    let r := c.get_impl env
    if c.mode = .required ∧ r.1.is_null = true then
      .exited 1
    else
      .ok ⟨c, c, false, r.1⟩ r.2

/-- Is the event a log call? -/
def Event.isLogEv : Event → Bool
  | .log _ _ => true
  | _ => false

/-- Is the event a device `open` invocation? -/
def Event.isOpenDev : Event → Bool
  | .devOpen _ _ => true
  | _ => false

/-- Is the event a device construction via the factory? -/
def Event.isConstructEv : Event → Bool
  | .construct _ => true
  | _ => false

/-- Is the event a device `set_timeout` invocation? -/
def Event.isSetTimeoutEv : Event → Bool
  | .devSetTimeout _ _ _ => true
  | _ => false

/-- Is the event any device operation invocation? -/
def Event.isDevOpEv : Event → Bool
  | .devOpen _ _ => true
  | .devClose _ _ => true
  | .devKeepalive _ _ => true
  | .devSetTimeout _ _ _ => true
  | .devGetTimeout _ _ => true
  | _ => false

/-- Identity tag of the device an event operates on (`none` for non-device
events). -/
def Event.devTag : Event → Option Nat
  | .devOpen t _ => some t
  | .devClose t _ => some t
  | .devKeepalive t _ => some t
  | .devSetTimeout t _ _ => some t
  | .devGetTimeout t _ => some t
  | _ => none

/-- Is the event a `close` of the device with identity tag `t`? -/
def Event.isCloseWithTag (t : Nat) : Event → Bool
  | .devClose u _ => u == t
  | _ => false

/-- Is the event an `open` of the device with identity tag `t`? -/
def Event.isOpenWithTag (t : Nat) : Event → Bool
  | .devOpen u _ => u == t
  | _ => false

/-- Is the event one of the three reconciliation-branch markers of
`keepalive`? -/
def Event.isBranchMarker : Event → Bool
  | .branchOffToOn => true
  | .branchDriverChange => true
  | .branchTimeoutChange => true
  | _ => false

/-- The events `activateTail` appends to its input trace. -/
def tailExtra (w : Watchdog) : List Event :=
  if w.impl.is_running then [Event.log .info .activated]
  else if w.config.mode = .required then [Event.log .error .requiredNotActivated]
  else []

/-- An environment whose factory degrades every driver to the null device. -/
def envNull : Env := ⟨fun _ _ => NullWatchdog⟩

/-- Snapshot with an explicit safety margin: timeout 25, slack 15. -/
def cfgMargin : WatchdogConfig := ⟨.automatic, 30, 10, 5, "default", []⟩

/-- Snapshot with the `-1` sentinel margin: timeout 15, slack 5. -/
def cfgSentinel : WatchdogConfig := ⟨.automatic, 30, 10, -1, "default", []⟩

/-- Snapshot equal to `cfgMargin` except for `ttl` (so only `timeout` changes). -/
def cfgTtl40 : WatchdogConfig := ⟨.automatic, 40, 10, 5, "default", []⟩

/-- Snapshot equal to `cfgMargin` except for the driver. -/
def cfgOther : WatchdogConfig := ⟨.automatic, 30, 10, 5, "other", []⟩

/-- Required-mode snapshot. -/
def cfgReq : WatchdogConfig := ⟨.required, 30, 10, 5, "default", []⟩

/-- Off-mode snapshot. -/
def cfgOff : WatchdogConfig := ⟨.off, 30, 10, 5, "default", []⟩

/-- Snapshot with negative timing slack (ttl 10, loop_wait 10, margin 5). -/
def cfgNegSlack : WatchdogConfig := ⟨.automatic, 10, 10, 5, "default", []⟩

/-- Required snapshot with negative computed timeout but nonnegative slack
(ttl -3, margin 2 so timeout -5; loop_wait -6 so slack 1). -/
def cfgC1 : WatchdogConfig := ⟨.required, -3, -6, 2, "default", []⟩

/-- A device whose `keepalive` and `set_timeout` raise `WatchdogError`. -/
def devRaise : Device :=
  ⟨1, false,
    ⟨fun _ => true, fun _ => true, fun _ => true, fun _ => false,
     fun s => .ok s, fun s => .ok s, fun _ => .error (), fun _ _ => .error (),
     fun _ => .ok 10⟩, 0⟩

/-- A well-behaved running device reporting timeout 0 and no configurable
timeout. -/
def devZero : Device :=
  ⟨1, false,
    ⟨fun _ => true, fun _ => true, fun _ => true, fun _ => false,
     fun s => .ok s, fun s => .ok s, fun s => .ok s, fun _ _ => .error (),
     fun _ => .ok 0⟩, 0⟩

/-- A well-behaved running device with a configurable timeout. -/
def devRun : Device :=
  ⟨1, false,
    ⟨fun _ => true, fun _ => true, fun _ => true, fun _ => true,
     fun s => .ok s, fun s => .ok s, fun s => .ok s, fun _ _ => .ok 1,
     fun _ => .ok 25⟩, 0⟩

/-- Manager state for the C5 counterexample: active, device already degraded
to Null, snapshot changed only in `ttl` (so only branch (c) applies). -/
def wC5 : Watchdog := ⟨cfgTtl40, cfgMargin, true, NullWatchdog⟩

/-- Manager state for the C5 witness: active, driver changed (branch (b)). -/
def wC5w : Watchdog := ⟨cfgOther, cfgMargin, true, NullWatchdog⟩

/-- Manager state for the C2 witness: active with a raising device. -/
def wC2 : Watchdog := ⟨cfgMargin, cfgMargin, true, devRaise⟩

/-- Manager state for the C6 witness: negative slack, real device installed. -/
def wC6 : Watchdog := ⟨cfgNegSlack, cfgNegSlack, true, devRun⟩

/-- Manager state for the C1 counterexample. -/
def wC1 : Watchdog := ⟨cfgC1, cfgC1, false, devZero⟩

/-- Manager state for the C8 counterexample and witness. -/
def wC8 : Watchdog := ⟨cfgMargin, cfgMargin, true, NullWatchdog⟩

/-- Manager state for the C4 witness. -/
def wC4 : Watchdog := ⟨cfgMargin, cfgMargin, true, devRun⟩

/-- A second well-behaved running device with identity tag 2, as returned by
the factory for the new driver in the C3 witness. -/
def devNew : Device :=
  ⟨2, false,
    ⟨fun _ => true, fun _ => true, fun _ => true, fun _ => true,
     fun s => .ok s, fun s => .ok s, fun s => .ok s, fun _ _ => .ok 1,
     fun _ => .ok 25⟩, 0⟩

/-- Environment whose factory returns `devNew` for every driver. -/
def envReal : Env := ⟨fun _ _ => devNew⟩

/-! ## Theorems -/

theorem Device.openCall_ok {d d' : Device} (h : d.openCall = .ok d') :
    d'.tag = d.tag ∧ d'.is_null = d.is_null ∧ d'.beh = d.beh := by
  unfold Device.openCall at h
  cases e : d.beh.openOp d.st <;> simp [e, Except.map] at h
  subst h; exact ⟨rfl, rfl, rfl⟩

theorem Device.closeCall_ok {d d' : Device} (h : d.closeCall = .ok d') :
    d'.tag = d.tag ∧ d'.is_null = d.is_null ∧ d'.beh = d.beh := by
  unfold Device.closeCall at h
  cases e : d.beh.closeOp d.st <;> simp [e, Except.map] at h
  subst h; exact ⟨rfl, rfl, rfl⟩

theorem Device.keepaliveCall_ok {d d' : Device} (h : d.keepaliveCall = .ok d') :
    d'.tag = d.tag ∧ d'.is_null = d.is_null ∧ d'.beh = d.beh := by
  unfold Device.keepaliveCall at h
  cases e : d.beh.keepaliveOp d.st <;> simp [e, Except.map] at h
  subst h; exact ⟨rfl, rfl, rfl⟩

theorem Device.set_timeoutCall_ok {d d' : Device} {t : Int}
    (h : d.set_timeoutCall t = .ok d') :
    d'.tag = d.tag ∧ d'.is_null = d.is_null ∧ d'.beh = d.beh := by
  unfold Device.set_timeoutCall at h
  cases e : d.beh.set_timeoutOp t d.st <;> simp [e, Except.map] at h
  subst h; exact ⟨rfl, rfl, rfl⟩

/-- Every event emitted by `_set_timeout` is a non-construct, non-open device
operation on the device the call started with (or the log of a degrade), never
a reconciliation marker. -/
theorem setTimeout_trace (w : Watchdog) {res : Except Unit (Option Int)} {dev : Device} {tr : List Event}
    (h : Watchdog._set_timeout w = (res, dev, tr)) :
    ∀ e ∈ tr,
      e.isConstructEv = false ∧ e.isBranchMarker = false ∧ e.isOpenDev = false ∧
        (e.devTag = none ∨ e.devTag = some w.impl.tag) := by
  unfold Watchdog._set_timeout at h
  by_cases h1 : w.impl.has_set_timeout = true
  all_goals simp only [h1, if_true, if_false, Bool.false_eq_true, ite_true, ite_false] at h
  case pos =>
    cases hc : w.impl.set_timeoutCall w.config.timeout with
    | error u =>
      simp only [hc, Prod.mk.injEq] at h
      obtain ⟨-, -, h3⟩ := h
      subst h3
      intro e he
      fin_cases he <;>
        simp [Event.devTag, Event.isConstructEv, Event.isBranchMarker, Event.isOpenDev]
    | ok d1 =>
      obtain ⟨htag, hnull, hbeh⟩ := Device.set_timeoutCall_ok hc
      simp only [hc] at h
      cases hg : d1.get_timeoutCall with
      | error u =>
        simp only [hg, Prod.mk.injEq] at h
        obtain ⟨-, -, h3⟩ := h
        subst h3
        intro e he
        fin_cases he <;>
          simp [Event.devTag, Event.isConstructEv, Event.isBranchMarker, Event.isOpenDev, htag]
      | ok actual =>
        simp only [hg] at h
        by_cases h2 : (d1.is_running && decide (actual < w.config.loop_wait)) = true
        all_goals simp only [h2, if_true, if_false, Bool.false_eq_true, ite_true, ite_false] at h
        case pos =>
          by_cases h4 : d1.can_be_disabled = true
          all_goals simp only [h4, if_true, if_false, Bool.false_eq_true, ite_true, ite_false] at h
          case pos =>
            cases hcl : d1.closeCall with
            | error u =>
              simp only [hcl, Prod.mk.injEq] at h
              obtain ⟨-, -, h3⟩ := h
              subst h3
              intro e he
              fin_cases he <;>
                simp [Event.devTag, Event.isConstructEv, Event.isBranchMarker, Event.isOpenDev, htag]
            | ok d2 =>
              simp only [hcl, Prod.mk.injEq] at h
              obtain ⟨-, -, h3⟩ := h
              subst h3
              intro e he
              fin_cases he <;>
                simp [Event.devTag, Event.isConstructEv, Event.isBranchMarker, Event.isOpenDev, htag]
          case neg =>
            simp only [Prod.mk.injEq] at h
            obtain ⟨-, -, h3⟩ := h
            subst h3
            intro e he
            fin_cases he <;>
              simp [Event.devTag, Event.isConstructEv, Event.isBranchMarker, Event.isOpenDev, htag]
        case neg =>
          simp only [Prod.mk.injEq] at h
          obtain ⟨-, -, h3⟩ := h
          subst h3
          intro e he
          fin_cases he <;>
            simp [Event.devTag, Event.isConstructEv, Event.isBranchMarker, Event.isOpenDev, htag]
  case neg =>
    cases hg : w.impl.get_timeoutCall with
    | error u =>
      simp only [hg, Prod.mk.injEq] at h
      obtain ⟨-, -, h3⟩ := h
      subst h3
      intro e he
      fin_cases he <;>
        simp [Event.devTag, Event.isConstructEv, Event.isBranchMarker, Event.isOpenDev]
    | ok actual =>
      simp only [hg] at h
      by_cases h2 : (w.impl.is_running && decide (actual < w.config.loop_wait)) = true
      all_goals simp only [h2, if_true, if_false, Bool.false_eq_true, ite_true, ite_false] at h
      case pos =>
        by_cases h4 : w.impl.can_be_disabled = true
        all_goals simp only [h4, if_true, if_false, Bool.false_eq_true, ite_true, ite_false] at h
        case pos =>
          cases hcl : w.impl.closeCall with
          | error u =>
            simp only [hcl, Prod.mk.injEq] at h
            obtain ⟨-, -, h3⟩ := h
            subst h3
            intro e he
            fin_cases he <;>
              simp [Event.devTag, Event.isConstructEv, Event.isBranchMarker, Event.isOpenDev]
          | ok d2 =>
            simp only [hcl, Prod.mk.injEq] at h
            obtain ⟨-, -, h3⟩ := h
            subst h3
            intro e he
            fin_cases he <;>
              simp [Event.devTag, Event.isConstructEv, Event.isBranchMarker, Event.isOpenDev]
        case neg =>
          simp only [Prod.mk.injEq] at h
          obtain ⟨-, -, h3⟩ := h
          subst h3
          intro e he
          fin_cases he <;>
            simp [Event.devTag, Event.isConstructEv, Event.isBranchMarker, Event.isOpenDev]
      case neg =>
        simp only [Prod.mk.injEq] at h
        obtain ⟨-, -, h3⟩ := h
        subst h3
        intro e he
        fin_cases he <;>
          simp [Event.devTag, Event.isConstructEv, Event.isBranchMarker, Event.isOpenDev]

theorem truthy_iff (a : Option Int) (t : Int) :
    (match a with
      | none => false
      | some v => !(decide (v = 0)) && decide (t < v)) = true ↔
      ∃ v, a = some v ∧ v ≠ 0 ∧ t < v := by
  cases a <;> simp

theorem activateTail_state (w : Watchdog) (a : Option Int) (evs : List Event) :
    (activateTail w a evs).2.1 = w ∧ (activateTail w a evs).2.2.1 = a := by
  unfold activateTail
  repeat' split
  all_goals exact ⟨rfl, rfl⟩

theorem activateTail_ret (w : Watchdog) (a : Option Int) (evs : List Event) :
    (activateTail w a evs).1 = false ↔
      (w.impl.is_running = false ∧ w.config.mode = .required) := by
  by_cases hr : w.impl.is_running = true
  · simp [activateTail, hr]
  · by_cases hm : w.config.mode = .required <;> simp [activateTail, hr, hm]

theorem activateTail_trace (w : Watchdog) (a : Option Int) (evs : List Event) :
    (activateTail w a evs).2.2.2 = evs ++ tailExtra w := by
  unfold activateTail tailExtra
  repeat' split
  all_goals simp

theorem tailExtra_log (w : Watchdog) : ∀ e ∈ tailExtra w, e.isLogEv = true := by
  unfold tailExtra
  repeat' split
  all_goals intro e he
  all_goals fin_cases he <;> rfl

theorem activateCheck_state (w : Watchdog) (a : Option Int) (evs : List Event) :
    (activateCheck w a evs).2.1 = w ∧ (activateCheck w a evs).2.2.1 = a := by
  unfold activateCheck
  dsimp only
  repeat' split
  all_goals first
    | exact ⟨rfl, rfl⟩
    | exact activateTail_state _ _ _

theorem activateCheck_ret (w : Watchdog) (a : Option Int) (evs : List Event) :
    (activateCheck w a evs).1 = false ↔
      (w.config.mode = .required ∧
        (w.impl.is_running = false ∨ ∃ v, a = some v ∧ v ≠ 0 ∧ w.config.timeout < v)) := by
  have hEx := truthy_iff a w.config.timeout
  unfold activateCheck
  by_cases hr : w.impl.is_running = true <;> by_cases hm : w.config.mode = .required <;>
    cases hb : (match a with
      | none => false
      | some v => !(decide (v = 0)) && decide (w.config.timeout < v)) <;>
    rw [hb] at hEx <;>
    simp [hr, hm, hb, activateTail_ret, ← hEx]

theorem activateCheck_trace (w : Watchdog) (a : Option Int) (evs : List Event) :
    ∃ extra, (activateCheck w a evs).2.2.2 = evs ++ extra ∧
      ∀ e ∈ extra, e.isLogEv = true := by
  unfold activateCheck
  dsimp only
  repeat' split
  all_goals simp only [activateTail_trace, List.append_assoc]
  all_goals refine ⟨_, rfl, ?_⟩
  all_goals simp only [List.forall_mem_append]
  all_goals repeat' constructor
  all_goals first
    | exact tailExtra_log w
    | (intro e he; fin_cases he <;> rfl)

theorem activateOpen_fields (w : Watchdog) :
    (activateOpen w).1.config = w.config ∧ (activateOpen w).1.active = w.active ∧
      (activateOpen w).1.active_config = w.config := by
  unfold activateOpen
  dsimp only
  repeat' split
  all_goals exact ⟨rfl, rfl, rfl⟩

theorem activateOpen_slack_neg (w : Watchdog) (h : w.config.timing_slack < 0) :
    activateOpen w =
      ({ w with active_config := w.config, impl := NullWatchdog }, some 1000000000,
        [Event.log .warning .slackTooSmall, Event.devOpen 0 true, Event.devGetTimeout 0 true]) := by
  unfold activateOpen
  simp [h, Watchdog._set_timeout, NullWatchdog, nullBehavior, Device.has_set_timeout,
    Device.get_timeoutCall, Device.openCall, Device.is_running, Except.map]

theorem activateOpen_slack_nonneg (w : Watchdog) (h : ¬ w.config.timing_slack < 0) :
    ∃ rest, (activateOpen w).2.2 = Event.devOpen w.impl.tag w.impl.is_null :: rest ∧
      ∀ e ∈ rest,
        e.isConstructEv = false ∧ e.isBranchMarker = false ∧ e.isOpenDev = false ∧
          (e.devTag = none ∨ e.devTag = some w.impl.tag ∨ e.devTag = some 0) := by
  unfold activateOpen
  dsimp only
  rw [if_neg h]
  split
  next x u heq =>
    dsimp only at heq ⊢
    refine ⟨[Event.log (if w.config.mode = Mode.required then LogLevel.warning else LogLevel.debug)
        Msg.couldNotActivate, Event.devGetTimeout 0 true], by simp, ?_⟩
    intro e he
    fin_cases he <;> exact ⟨rfl, rfl, rfl, by simp [Event.devTag]⟩
  next x d1 heq =>
    dsimp only at heq ⊢
    obtain ⟨htag, hnull, hbeh⟩ := Device.openCall_ok heq
    rcases hst : Watchdog._set_timeout ⟨w.config, w.config, w.active, d1⟩ with ⟨res, dev, evs⟩
    have hev := setTimeout_trace _ hst
    dsimp only at hev
    rw [htag] at hev
    cases res with
    | error u =>
      dsimp only
      refine ⟨evs ++ [Event.log (if w.config.mode = Mode.required then LogLevel.warning
          else LogLevel.debug) Msg.couldNotActivate, Event.devGetTimeout 0 true], by simp, ?_⟩
      simp only [List.forall_mem_append]
      constructor
      · intro e he
        obtain ⟨a, b, c, d⟩ := hev e he
        exact ⟨a, b, c, by rcases d with d | d; exact Or.inl d; exact Or.inr (Or.inl d)⟩
      · intro e he
        fin_cases he <;> exact ⟨rfl, rfl, rfl, by simp [Event.devTag]⟩
    | ok act =>
      dsimp only
      refine ⟨evs, by simp, ?_⟩
      intro e he
      obtain ⟨a, b, c, d⟩ := hev e he
      exact ⟨a, b, c, by rcases d with d | d; exact Or.inl d; exact Or.inr (Or.inl d)⟩

theorem log_pred {e : Event} (h : e.isLogEv = true) :
    e.isConstructEv = false ∧ e.isBranchMarker = false ∧ e.isOpenDev = false ∧
      e.isSetTimeoutEv = false ∧ e.devTag = none := by
  cases e <;> simp_all [Event.isLogEv, Event.isConstructEv, Event.isBranchMarker,
    Event.isOpenDev, Event.isSetTimeoutEv, Event.devTag]

theorem activate_fields (w : Watchdog) :
    (Watchdog._activate w).2.1.config = w.config ∧
      (Watchdog._activate w).2.1.active = w.active ∧
      (Watchdog._activate w).2.1.active_config = w.config := by
  unfold Watchdog._activate
  dsimp only
  obtain ⟨h1, h2, h3⟩ := activateOpen_fields w
  obtain ⟨hs1, hs2⟩ :=
    activateCheck_state (activateOpen w).1 (activateOpen w).2.1 (activateOpen w).2.2
  rw [hs1]
  exact ⟨h1, h2, h3⟩

theorem activate_ret (w : Watchdog) :
    (Watchdog._activate w).1 = false ↔
      (w.config.mode = .required ∧
        ((Watchdog._activate w).2.1.impl.is_running = false ∨
          ∃ v, (Watchdog._activate w).2.2.1 = some v ∧ v ≠ 0 ∧ w.config.timeout < v)) := by
  unfold Watchdog._activate
  dsimp only
  obtain ⟨h1, h2, h3⟩ := activateOpen_fields w
  obtain ⟨hs1, hs2⟩ :=
    activateCheck_state (activateOpen w).1 (activateOpen w).2.1 (activateOpen w).2.2
  rw [activateCheck_ret, hs1, hs2, h1]

theorem activate_trace_nonneg (w : Watchdog) (h : ¬ w.config.timing_slack < 0) :
    ∃ rest, (Watchdog._activate w).2.2.2 = Event.devOpen w.impl.tag w.impl.is_null :: rest ∧
      ∀ e ∈ rest,
        e.isConstructEv = false ∧ e.isBranchMarker = false ∧ e.isOpenDev = false ∧
          (e.devTag = none ∨ e.devTag = some w.impl.tag ∨ e.devTag = some 0) := by
  unfold Watchdog._activate
  dsimp only
  obtain ⟨rest1, hre, hrest⟩ := activateOpen_slack_nonneg w h
  obtain ⟨extra, hex, hlog⟩ :=
    activateCheck_trace (activateOpen w).1 (activateOpen w).2.1 (activateOpen w).2.2
  rw [hex, hre]
  refine ⟨rest1 ++ extra, by simp, ?_⟩
  simp only [List.forall_mem_append]
  refine ⟨hrest, ?_⟩
  intro e he
  obtain ⟨a, b, c, -, d⟩ := log_pred (hlog e he)
  exact ⟨a, b, c, Or.inl d⟩

theorem activate_no_marker (w : Watchdog) :
    ∀ e ∈ (Watchdog._activate w).2.2.2,
      e.isBranchMarker = false ∧ e.isConstructEv = false := by
  rcases lt_or_ge w.config.timing_slack 0 with hs | hs
  · unfold Watchdog._activate
    dsimp only
    obtain ⟨extra, hex, hlog⟩ :=
      activateCheck_trace (activateOpen w).1 (activateOpen w).2.1 (activateOpen w).2.2
    rw [hex, activateOpen_slack_neg w hs]
    intro e he
    dsimp only at he
    simp only [List.mem_append] at he
    rcases he with he | he
    · fin_cases he <;> exact ⟨rfl, rfl⟩
    · obtain ⟨hc, hb, -, -, -⟩ := log_pred (hlog e he)
      exact ⟨hb, hc⟩
  · have hs2 : ¬ w.config.timing_slack < 0 := not_lt.mpr hs
    obtain ⟨rest, hre, hrest⟩ := activate_trace_nonneg w hs2
    rw [hre]
    intro e he
    rcases List.mem_cons.mp he with rfl | he
    · exact ⟨rfl, rfl⟩
    · obtain ⟨hc, hb, -, -⟩ := hrest e he
      exact ⟨hb, hc⟩

theorem disable_fields (w : Watchdog) :
    (w._disable).1.config = w.config ∧ (w._disable).1.active_config = w.active_config ∧
      (w._disable).1.active = w.active ∧ (w._disable).1.impl.tag = w.impl.tag ∧
      (w._disable).1.impl.is_null = w.impl.is_null ∧ (w._disable).1.impl.beh = w.impl.beh := by
  unfold Watchdog._disable
  by_cases hc : (w.impl.is_running && !w.impl.can_be_disabled) = true
  all_goals simp only [hc, if_true, if_false, Bool.false_eq_true, ite_true, ite_false]
  case pos =>
    cases hk : w.impl.keepaliveCall with
    | error u => dsimp only; exact ⟨rfl, rfl, rfl, rfl, rfl, rfl⟩
    | ok d1 =>
      obtain ⟨ht1, hn1, hb1⟩ := Device.keepaliveCall_ok hk
      dsimp only
      cases hg : d1.get_timeoutCall with
      | error u => dsimp only; exact ⟨rfl, rfl, rfl, ht1, hn1, hb1⟩
      | ok t =>
        dsimp only
        cases hcl : d1.closeCall with
        | error u => dsimp only; exact ⟨rfl, rfl, rfl, ht1, hn1, hb1⟩
        | ok d2 =>
          obtain ⟨ht2, hn2, hb2⟩ := Device.closeCall_ok hcl
          dsimp only
          exact ⟨rfl, rfl, rfl, ht2.trans ht1, hn2.trans hn1, hb2.trans hb1⟩
  case neg =>
    cases hcl : w.impl.closeCall with
    | error u => dsimp only; exact ⟨rfl, rfl, rfl, rfl, rfl, rfl⟩
    | ok d1 =>
      obtain ⟨ht1, hn1, hb1⟩ := Device.closeCall_ok hcl
      dsimp only
      exact ⟨rfl, rfl, rfl, ht1, hn1, hb1⟩

theorem disable_trace (w : Watchdog) :
    ∀ e ∈ (w._disable).2,
      e.isConstructEv = false ∧ e.isBranchMarker = false ∧ e.isOpenDev = false ∧
        e.isSetTimeoutEv = false ∧ (e.devTag = none ∨ e.devTag = some w.impl.tag) := by
  unfold Watchdog._disable
  by_cases hc : (w.impl.is_running && !w.impl.can_be_disabled) = true
  all_goals simp only [hc, if_true, if_false, Bool.false_eq_true, ite_true, ite_false]
  case pos =>
    cases hk : w.impl.keepaliveCall with
    | error u =>
      dsimp only
      intro e he
      fin_cases he <;> exact ⟨rfl, rfl, rfl, rfl, by simp [Event.devTag]⟩
    | ok d1 =>
      obtain ⟨ht1, hn1, hb1⟩ := Device.keepaliveCall_ok hk
      dsimp only
      cases hg : d1.get_timeoutCall with
      | error u =>
        dsimp only
        intro e he
        fin_cases he <;> exact ⟨rfl, rfl, rfl, rfl, by simp [Event.devTag, ht1]⟩
      | ok t =>
        dsimp only
        cases hcl : d1.closeCall with
        | error u =>
          dsimp only
          intro e he
          fin_cases he <;> exact ⟨rfl, rfl, rfl, rfl, by simp [Event.devTag, ht1]⟩
        | ok d2 =>
          dsimp only
          intro e he
          fin_cases he <;> exact ⟨rfl, rfl, rfl, rfl, by simp [Event.devTag, ht1]⟩
  case neg =>
    cases hcl : w.impl.closeCall with
    | error u =>
      dsimp only
      intro e he
      fin_cases he <;> exact ⟨rfl, rfl, rfl, rfl, by simp [Event.devTag]⟩
    | ok d1 =>
      dsimp only
      intro e he
      fin_cases he <;> exact ⟨rfl, rfl, rfl, rfl, by simp [Event.devTag]⟩

theorem disable_trace_run (w : Watchdog)
    (hk : ∀ s, ∃ s2, w.impl.beh.keepaliveOp s = Except.ok s2)
    (hg : ∀ s, ∃ t, w.impl.beh.get_timeoutOp s = Except.ok t)
    (hcl : ∀ s, ∃ s2, w.impl.beh.closeOp s = Except.ok s2) :
    (w._disable).2 =
      if (w.impl.is_running && !w.impl.can_be_disabled) = true then
        [Event.devKeepalive w.impl.tag w.impl.is_null,
         Event.devGetTimeout w.impl.tag w.impl.is_null,
         Event.log .warning .rebootSoon, Event.devClose w.impl.tag w.impl.is_null]
      else [Event.devClose w.impl.tag w.impl.is_null] := by
  unfold Watchdog._disable
  by_cases hc : (w.impl.is_running && !w.impl.can_be_disabled) = true
  all_goals simp only [hc, if_true, if_false, Bool.false_eq_true, ite_true, ite_false]
  case pos =>
    obtain ⟨s2, hs2⟩ := hk w.impl.st
    have hkc : w.impl.keepaliveCall = Except.ok { w.impl with st := s2 } := by
      unfold Device.keepaliveCall
      rw [hs2]
      rfl
    rw [hkc]
    dsimp only
    obtain ⟨t, ht⟩ := hg s2
    have hgc : Device.get_timeoutCall { w.impl with st := s2 } = Except.ok t := ht
    rw [hgc]
    dsimp only
    obtain ⟨s3, hs3⟩ := hcl s2
    have hcc : Device.closeCall { w.impl with st := s2 } = Except.ok { w.impl with st := s3 } := by
      unfold Device.closeCall
      dsimp only
      rw [hs3]
      rfl
    rw [hcc]
    rfl
  case neg =>
    obtain ⟨s2, hs2⟩ := hcl w.impl.st
    have hcc : w.impl.closeCall = Except.ok { w.impl with st := s2 } := by
      unfold Device.closeCall
      rw [hs2]
      rfl
    rw [hcc]

theorem disable_notrunning (w : Watchdog) (h : w.impl.is_running = false) :
    ((w._disable).2).filter Event.isDevOpEv =
      [Event.devClose w.impl.tag w.impl.is_null] := by
  unfold Watchdog._disable
  have hc : (w.impl.is_running && !w.impl.can_be_disabled) = false := by
    rw [h]; rfl
  simp only [hc, Bool.false_eq_true, if_false, ite_false]
  cases hcl : w.impl.closeCall with
  | error u => dsimp only; simp [Event.isDevOpEv, Event.isLogEv]
  | ok d1 => dsimp only; simp [Event.isDevOpEv]

theorem marker_filter_activate (w : Watchdog) :
    ((Watchdog._activate w).2.2.2).filter Event.isBranchMarker = [] :=
  List.filter_eq_nil_iff.mpr fun e he => by
    rw [(activate_no_marker w e he).1]; simp

theorem construct_filter_activate (w : Watchdog) :
    ((Watchdog._activate w).2.2.2).filter Event.isConstructEv = [] :=
  List.filter_eq_nil_iff.mpr fun e he => by
    rw [(activate_no_marker w e he).2]; simp

theorem marker_filter_disable (w : Watchdog) :
    ((w._disable).2).filter Event.isBranchMarker = [] :=
  List.filter_eq_nil_iff.mpr fun e he => by
    rw [(disable_trace w e he).2.1]; simp

theorem reconcileA_no (w : Watchdog) (env : Env)
    (h : ¬ (w.config.mode ≠ .off ∧ w.active_config.mode = .off)) :
    w.reconcileA env = (w, []) := by
  unfold Watchdog.reconcileA
  rw [if_neg h]

theorem reconcileA_fields (w : Watchdog) (env : Env) :
    (w.reconcileA env).1.config = w.config ∧ (w.reconcileA env).1.active = w.active := by
  unfold Watchdog.reconcileA
  split
  · dsimp only
    obtain ⟨h1, h2, -⟩ := activate_fields { w with impl := (w.config.get_impl env).1 }
    exact ⟨h1, h2⟩
  · exact ⟨rfl, rfl⟩

theorem reconcileA_acfg (w : Watchdog) (env : Env)
    (h : w.config.mode ≠ .off ∧ w.active_config.mode = .off) :
    (w.reconcileA env).1.active_config = (w.reconcileA env).1.config := by
  unfold Watchdog.reconcileA
  rw [if_pos h]
  dsimp only
  obtain ⟨h1, -, h3⟩ := activate_fields { w with impl := (w.config.get_impl env).1 }
  rw [h1, h3]

theorem reconcileA_marker (w : Watchdog) (env : Env) :
    ((w.reconcileA env).2.filter Event.isBranchMarker).length ≤ 1 := by
  unfold Watchdog.reconcileA
  split
  · dsimp only
    rw [List.filter_append, List.filter_append, marker_filter_activate]
    simp [Event.isBranchMarker, WatchdogConfig.get_impl, Event.isConstructEv]
  · simp

theorem reconcileB_no (w : Watchdog) (env : Env)
    (h : ¬ (w.config.driver ≠ w.active_config.driver ∨
            w.config.driver_config ≠ w.active_config.driver_config)) :
    w.reconcileB env = (w, []) := by
  unfold Watchdog.reconcileB
  rw [if_neg h]

theorem reconcileB_fields (w : Watchdog) (env : Env) :
    (w.reconcileB env).1.config = w.config ∧ (w.reconcileB env).1.active = w.active := by
  unfold Watchdog.reconcileB
  split
  · dsimp only
    obtain ⟨h1, h2, -⟩ :=
      activate_fields { (w._disable).1 with impl := (w.config.get_impl env).1 }
    obtain ⟨hd1, -, hd3, -⟩ := disable_fields w
    refine ⟨h1.trans ?_, h2.trans ?_⟩
    · exact hd1
    · exact hd3
  · exact ⟨rfl, rfl⟩

theorem reconcileB_acfg (w : Watchdog) (env : Env)
    (h : w.config.driver ≠ w.active_config.driver ∨
         w.config.driver_config ≠ w.active_config.driver_config) :
    (w.reconcileB env).1.active_config = (w.reconcileB env).1.config := by
  unfold Watchdog.reconcileB
  rw [if_pos h]
  dsimp only
  obtain ⟨h1, -, h3⟩ :=
    activate_fields { (w._disable).1 with impl := (w.config.get_impl env).1 }
  rw [h1, h3]

theorem reconcileB_marker (w : Watchdog) (env : Env) :
    ((w.reconcileB env).2.filter Event.isBranchMarker).length ≤ 1 := by
  unfold Watchdog.reconcileB
  split
  · dsimp only
    rw [List.filter_append, List.filter_append, List.filter_append,
      marker_filter_activate, marker_filter_disable]
    simp [Event.isBranchMarker, WatchdogConfig.get_impl, Event.isConstructEv]
  · simp

theorem reconcileC_no (w : Watchdog)
    (h : ¬ w.config.timeout ≠ w.active_config.timeout) :
    w.reconcileC = (.ok (), { w with active_config := w.config }, []) := by
  unfold Watchdog.reconcileC
  rw [if_neg h]

theorem reconcileC_marker (w : Watchdog) :
    ((w.reconcileC).2.2.filter Event.isBranchMarker).length ≤ 1 := by
  unfold Watchdog.reconcileC
  split
  · split
    · simp [Event.isBranchMarker]
    · dsimp only
      split
      · split
        · simp [Event.isBranchMarker]
        · simp [Event.isBranchMarker]
      · simp [Event.isBranchMarker]
  · simp

theorem reconcileC_ok (w : Watchdog) {s1 : Watchdog} {tr : List Event}
    (h : w.reconcileC = (.ok (), s1, tr)) :
    s1.active_config = s1.config := by
  unfold Watchdog.reconcileC at h
  split at h
  · split at h
    · simp only [Prod.mk.injEq] at h
      exact absurd h.1 (by simp)
    · dsimp only at h
      split at h
      · split at h
        · simp only [Prod.mk.injEq] at h
          exact absurd h.1 (by simp)
        · simp only [Prod.mk.injEq] at h
          rw [← h.2.1]
      · simp only [Prod.mk.injEq] at h
        rw [← h.2.1]
  · simp only [Prod.mk.injEq] at h
    rw [← h.2.1]

theorem keepaliveBody_marker (w : Watchdog) (env : Env) :
    (((w.keepaliveBody env).2.2).filter Event.isBranchMarker).length ≤ 1 := by
  unfold Watchdog.keepaliveBody
  dsimp only
  by_cases ha : w.active = true
  case neg =>
    rw [if_neg ha]
    dsimp only
    rw [if_neg (show ¬(w.active = true ∧ w.config ≠ w.active_config) from
      fun hcon => ha hcon.1)]
    simp
  case pos =>
    rw [if_pos ha]
    cases hk : w.impl.keepaliveCall with
    | error u =>
      simp [Except.map, Event.isBranchMarker]
    | ok d =>
      simp only [hk, Except.map]
      dsimp only
      split
      · dsimp only
        by_cases hA : (({ w with impl := d } : Watchdog).config.mode ≠ .off ∧
            ({ w with impl := d } : Watchdog).active_config.mode = .off)
        · have hacfg := reconcileA_acfg { w with impl := d } env hA
          have hBno := reconcileB_no (Watchdog.reconcileA { w with impl := d } env).1 env
            (by rw [hacfg]; simp)
          rw [hBno]
          dsimp only
          have hCno := reconcileC_no (Watchdog.reconcileA { w with impl := d } env).1
            (by rw [hacfg]; simp)
          rw [hCno]
          dsimp only
          have hm := reconcileA_marker { w with impl := d } env
          simp only [List.filter_append, List.length_append, List.append_nil]
          simpa [Event.isBranchMarker] using hm
        · have hAno := reconcileA_no { w with impl := d } env hA
          rw [hAno]
          dsimp only
          by_cases hB : (({ w with impl := d } : Watchdog).config.driver ≠
                ({ w with impl := d } : Watchdog).active_config.driver ∨
              ({ w with impl := d } : Watchdog).config.driver_config ≠
                ({ w with impl := d } : Watchdog).active_config.driver_config)
          · have hacfgB := reconcileB_acfg { w with impl := d } env hB
            have hCno := reconcileC_no (Watchdog.reconcileB { w with impl := d } env).1
              (by rw [hacfgB]; simp)
            rw [hCno]
            dsimp only
            have hm := reconcileB_marker { w with impl := d } env
            simp only [List.filter_append, List.length_append, List.append_nil]
            simpa [Event.isBranchMarker] using hm
          · have hBno := reconcileB_no { w with impl := d } env hB
            rw [hBno]
            dsimp only
            have hm := reconcileC_marker ({ w with impl := d } : Watchdog)
            simp only [List.filter_append, List.length_append]
            simpa [Event.isBranchMarker] using hm
      · simp [Event.isBranchMarker]

/-- C9: in every single `keepalive()` call at most one of the three
reconciliation branches executes, because `_activate` assigns
`active_config := config` before the later branch guards are evaluated. -/
theorem claim_C9 (w : Watchdog) (env : Env) :
    (((w.keepalive env).2).filter Event.isBranchMarker).length ≤ 1 := by
  have hb := keepaliveBody_marker w env
  unfold Watchdog.keepalive
  rcases hB : w.keepaliveBody env with ⟨res, w1, evs⟩
  rw [hB] at hb
  cases res with
  | error u =>
    dsimp only
    simpa [List.filter_append, Event.isBranchMarker] using hb
  | ok u =>
    dsimp only
    exact hb

/-- C5 (amended): after every `activate()` return `active_config = config`;
after a `keepalive()` that performed reconciliation (active with a changed
snapshot) and whose body completed without a `WatchdogError`,
`active_config = config`. -/
theorem claim_C5_amended :
    (∀ (w : Watchdog) (env : Env) (s1 : Watchdog) (tr : List Event),
        w.active = true → w.config ≠ w.active_config →
        w.keepaliveBody env = (Except.ok (), s1, tr) →
        s1.active_config = s1.config) ∧
    ∀ w : Watchdog, (w.activate).2.1.active_config = (w.activate).2.1.config := by
  constructor
  · intro w env s1 tr ha hne hb
    unfold Watchdog.keepaliveBody at hb
    dsimp only at hb
    rw [if_pos ha] at hb
    cases hk : w.impl.keepaliveCall with
    | error u =>
      rw [hk] at hb
      simp [Except.map, Prod.mk.injEq] at hb
    | ok d =>
      rw [hk] at hb
      dsimp only [Except.map] at hb
      rw [if_pos (show ({ w with impl := d } : Watchdog).active = true ∧
          ({ w with impl := d } : Watchdog).config ≠
            ({ w with impl := d } : Watchdog).active_config from ⟨ha, hne⟩)] at hb
      rcases hC : ((Watchdog.reconcileA { w with impl := d } env).1.reconcileB env).1.reconcileC
        with ⟨res, s2, tr2⟩
      rw [hC] at hb
      simp only [Prod.mk.injEq] at hb
      obtain ⟨h1, h2, -⟩ := hb
      exact reconcileC_ok _ (by rw [hC, h1, h2])
  · intro w
    unfold Watchdog.activate
    obtain ⟨h1, -, h3⟩ := activate_fields { w with active := true }
    rw [h1, h3]

/-- C2: `keepalive()` never raises to its caller, for every manager state and
every device behaviour (devices fail only with `WatchdogError`, which the
method catches); when the body raised, the error was logged. -/
theorem claim_C2 (w : Watchdog) (env : Env) :
    w.keepaliveM env = Except.ok (w.keepalive env) ∧
      ((w.keepaliveBody env).1 = Except.error () →
        Event.log .error .errorKeepalive ∈ (w.keepalive env).2) := by
  unfold Watchdog.keepaliveM Watchdog.keepalive
  rcases hb : w.keepaliveBody env with ⟨res, w1, evs⟩
  cases res with
  | error u =>
    cases u
    exact ⟨rfl, fun _ => by simp⟩
  | ok u =>
    refine ⟨rfl, fun h => ?_⟩
    simp at h

/-- Witness for C2 at a device whose `keepalive` raises. -/
theorem claim_C2_witness :
    wC2.keepaliveM envNull = Except.ok (wC2.keepalive envNull) ∧
      Event.log .error .errorKeepalive ∈ (wC2.keepalive envNull).2 :=
  ⟨(claim_C2 wC2 envNull).1, (claim_C2 wC2 envNull).2 rfl⟩

/-- C5 counterexample: an active manager on the Null device with only the
snapshot's ttl changed enters reconciliation (branch (c)); the Null device's
`set_timeout` raises, the error is caught and `active_config` is NOT set to
`config`, so the claim's unconditional postcondition fails. -/
theorem claim_C5_counterexample :
    wC5.active = true ∧ wC5.config ≠ wC5.active_config ∧
      ((wC5.keepalive envNull).1).active_config ≠ ((wC5.keepalive envNull).1).config := by
  exact ⟨rfl, by decide, by decide⟩

/-- Witness for the amended C5 at a reconciliation (driver change) whose
device operations all succeed. -/
theorem claim_C5_witness :
    wC5w.active = true ∧ wC5w.config ≠ wC5w.active_config ∧
      ((wC5w.keepaliveBody envNull).2.1).active_config =
        ((wC5w.keepaliveBody envNull).2.1).config :=
  ⟨rfl, by decide, claim_C5_amended.1 wC5w envNull _ _ rfl (by decide) rfl⟩

/-- C7: the derived timeout and timing slack are the stated pure functions of
the snapshot fields. -/
theorem claim_C7 (c : WatchdogConfig) :
    (c.safety_margin = -1 → c.timeout = Int.fdiv c.ttl 2) ∧
    (c.safety_margin ≠ -1 → c.timeout = c.ttl - c.safety_margin) ∧
    c.timing_slack = c.timeout - c.loop_wait := by
  refine ⟨fun h => ?_, fun h => ?_, rfl⟩
  · unfold WatchdogConfig.timeout
    rw [if_pos h]
  · unfold WatchdogConfig.timeout
    rw [if_neg h]

/-- Witness for C7 at a margin snapshot and a sentinel snapshot. -/
theorem claim_C7_witness :
    (cfgMargin.safety_margin ≠ -1 ∧
      cfgMargin.timeout = cfgMargin.ttl - cfgMargin.safety_margin) ∧
    cfgSentinel.safety_margin = -1 ∧
      cfgSentinel.timeout = Int.fdiv cfgSentinel.ttl 2 :=
  ⟨⟨by decide, (claim_C7 cfgMargin).2.1 (by decide)⟩,
   rfl, (claim_C7 cfgSentinel).1 rfl⟩

/-- C10: constructing the manager with mode Required when device selection
yields a null device exits the process with status 1; with mode Off the null
device is installed without consulting the factory (no construct event). -/
theorem claim_C10 (env : Env) (c : WatchdogConfig) :
    (c.mode = .required → (env.factory c.driver c.driver_config).is_null = true →
      Watchdog.init env c = .exited 1) ∧
    (c.mode = .off → Watchdog.init env c = .ok ⟨c, c, false, NullWatchdog⟩ []) := by
  constructor
  · intro hm hn
    unfold Watchdog.init
    rw [if_neg (show ¬c.mode = Mode.off by rw [hm]; simp)]
    dsimp only
    rw [if_pos (⟨hm, (hn : ((c.get_impl env).1).is_null = true)⟩ :
      c.mode = Mode.required ∧ ((c.get_impl env).1).is_null = true)]
  · intro hm
    unfold Watchdog.init
    rw [if_pos hm]

/-- Witness for C10 with a factory that yields only null devices. -/
theorem claim_C10_witness :
    Watchdog.init envNull cfgReq = .exited 1 ∧
    Watchdog.init envNull cfgOff = .ok ⟨cfgOff, cfgOff, false, NullWatchdog⟩ [] :=
  ⟨(claim_C10 envNull cfgReq).1 rfl rfl, (claim_C10 envNull cfgOff).2 rfl⟩

/-- C6: a negative timing slack forces the Null device for the whole
activation: the resulting device is null, every `open` performed during the
activation is on the Null device, and a warning is logged. -/
theorem claim_C6 (w : Watchdog) (h : w.config.timing_slack < 0) :
    (Watchdog._activate w).2.1.impl.is_null = true ∧
    (∀ e ∈ (Watchdog._activate w).2.2.2, e.isOpenDev = true → e = Event.devOpen 0 true) ∧
    Event.log .warning .slackTooSmall ∈ (Watchdog._activate w).2.2.2 := by
  unfold Watchdog._activate
  dsimp only
  obtain ⟨hs1, -⟩ :=
    activateCheck_state (activateOpen w).1 (activateOpen w).2.1 (activateOpen w).2.2
  obtain ⟨extra, hex, hlog⟩ :=
    activateCheck_trace (activateOpen w).1 (activateOpen w).2.1 (activateOpen w).2.2
  rw [hs1, hex, activateOpen_slack_neg w h]
  dsimp only
  refine ⟨rfl, ?_, by simp⟩
  intro e he
  simp only [List.mem_append] at he
  rcases he with he | he
  · fin_cases he <;> simp [Event.isOpenDev]
  · intro hop
    obtain ⟨-, -, ho, -, -⟩ := log_pred (hlog e he)
    rw [ho] at hop
    cases hop

/-- Witness for C6 at a negative-slack snapshot with a real running device
installed. -/
theorem claim_C6_witness :
    wC6.config.timing_slack < 0 ∧
      ((Watchdog._activate wC6).2.1.impl.is_null = true ∧
       (∀ e ∈ (Watchdog._activate wC6).2.2.2,
          e.isOpenDev = true → e = Event.devOpen 0 true) ∧
       Event.log .warning .slackTooSmall ∈ (Watchdog._activate wC6).2.2.2) :=
  ⟨by decide, claim_C6 wC6 (by decide)⟩

/-- C1 (amended): `activate()` sets the active flag and returns `false`
exactly when mode is Required and (the device is not running after the
sequence, or the achieved `actual_timeout` is set, nonzero and exceeds the
computed timeout).  The nonzero condition is forced by Python truthiness of
`actual_timeout`. -/
theorem claim_C1_amended (w : Watchdog) :
    (w.activate).2.1.active = true ∧
    ((w.activate).1 = false ↔
      (w.config.mode = .required ∧
        ((w.activate).2.1.impl.is_running = false ∨
          ∃ v, (w.activate).2.2.1 = some v ∧ v ≠ 0 ∧ w.config.timeout < v))) := by
  unfold Watchdog.activate
  exact ⟨(activate_fields { w with active := true }).2.1,
    activate_ret { w with active := true }⟩

/-- C1 counterexample: mode Required, the device runs and reports achieved
timeout 0, which is "set" and exceeds the computed timeout (-5), so the claim
as stated requires `activate()` to return `false`; the code returns `true`
because `actual_timeout and actual_timeout > timeout` treats 0 as unset. -/
theorem claim_C1_counterexample :
    wC1.config.mode = .required ∧
    (wC1.activate).2.2.1 = some 0 ∧
    wC1.config.timeout < 0 ∧
    (wC1.activate).2.1.impl.is_running = true ∧
    (wC1.activate).1 = true := by
  exact ⟨rfl, rfl, by decide, rfl, rfl⟩

/-- C4: reload to mode Off while active runs the disable sequence on the
current device before returning (one close; preceded by a final keepalive and
the cannot-disable warning when the device is running and cannot be
disabled), swaps the owned device for the Null device, and sets
`active_config` to the new snapshot (the `active` flag itself is untouched by
`reload_config`). -/
theorem claim_C4 (w : Watchdog) (env : Env) (c : WatchdogConfig)
    (hA : w.active = true) (hm : c.mode = .off)
    (hk : ∀ s, ∃ s2, w.impl.beh.keepaliveOp s = Except.ok s2)
    (hg : ∀ s, ∃ t, w.impl.beh.get_timeoutOp s = Except.ok t)
    (hcl : ∀ s, ∃ s2, w.impl.beh.closeOp s = Except.ok s2) :
    w.reload_config env c =
      (⟨c, c, true, NullWatchdog⟩,
        if (w.impl.is_running && !w.impl.can_be_disabled) = true then
          [Event.devKeepalive w.impl.tag w.impl.is_null,
           Event.devGetTimeout w.impl.tag w.impl.is_null,
           Event.log .warning .rebootSoon, Event.devClose w.impl.tag w.impl.is_null]
        else [Event.devClose w.impl.tag w.impl.is_null]) := by
  unfold Watchdog.reload_config
  dsimp only
  rw [if_pos (show ({ w with config := c } : Watchdog).config.mode = Mode.off from hm)]
  rw [if_pos (show ({ w with config := c } : Watchdog).active = true from hA)]
  obtain ⟨hd1, hd2, hd3, hd4, hd5, hd6⟩ := disable_fields ({ w with config := c } : Watchdog)
  have htr := disable_trace_run ({ w with config := c } : Watchdog) hk hg hcl
  dsimp only
  rw [if_neg (show ¬ (!(({ w with config := c } : Watchdog)._disable).1.active) = true by
    rw [hd3]; simp [hA])]
  rw [Prod.mk.injEq]
  constructor
  · rw [Watchdog.mk.injEq]
    exact ⟨hd1, hd1, hd3.trans hA, rfl⟩
  · exact htr

/-- C8 counterexample: after a first `disable()`, a second `disable()` is not
free of device operations — it invokes `close()` on the (Null/closed) device
again, so its event trace is a close, not empty. -/
theorem claim_C8_counterexample :
    ((wC8.disable).1.disable).2 = [Event.devClose 0 true] := by
  rfl

/-- C8 (amended): the second `disable()` performs no construction, open or
`set_timeout`; all its device operations target the same device object the
first call closed, and when that device no longer reports running (the
Null/properly-closed case) the second call's device operations are exactly
one (no-op) close. -/
theorem claim_C8_amended (w : Watchdog) :
    (∀ e ∈ ((w.disable).1.disable).2,
        e.isConstructEv = false ∧ e.isOpenDev = false ∧ e.isSetTimeoutEv = false ∧
          (e.devTag = none ∨ e.devTag = some w.impl.tag)) ∧
    ((w.disable).1.impl.is_running = false →
      (((w.disable).1.disable).2).filter Event.isDevOpEv =
        [Event.devClose w.impl.tag w.impl.is_null]) := by
  unfold Watchdog.disable
  dsimp only
  obtain ⟨-, -, -, hd4, hd5, -⟩ := disable_fields w
  constructor
  · intro e he
    obtain ⟨hc, -, ho, hs, htg⟩ :=
      disable_trace { (w._disable).1 with active := false } e he
    refine ⟨hc, ho, hs, ?_⟩
    rcases htg with htg | htg
    · exact Or.inl htg
    · refine Or.inr ?_
      rw [htg]
      dsimp only
      rw [hd4]
  · intro hrun
    have hnr := disable_notrunning { (w._disable).1 with active := false } hrun
    rw [hnr]
    dsimp only
    rw [hd4, hd5]

/-- Witness for the amended C8: on the Null device the second call's device
operations are exactly one close. -/
theorem claim_C8_witness :
    (((wC8.disable).1.disable).2).filter Event.isDevOpEv =
      [Event.devClose wC8.impl.tag wC8.impl.is_null] :=
  (claim_C8_amended wC8).2 rfl

theorem closeTag_devTag {t : Nat} {e : Event} (h : Event.isCloseWithTag t e = true) :
    e.devTag = some t := by
  cases e <;> simp_all [Event.isCloseWithTag, Event.devTag]

theorem openTag_isOpen {t : Nat} {e : Event} (h : Event.isOpenWithTag t e = true) :
    e.isOpenDev = true ∧ e.devTag = some t := by
  cases e <;> simp_all [Event.isOpenWithTag, Event.isOpenDev, Event.devTag]

/-- Witness for C4: reload to Off while active on a running, disableable
device immediately closes it and swaps to the Null device. -/
theorem claim_C4_witness :
    wC4.reload_config envNull cfgOff =
      (⟨cfgOff, cfgOff, true, NullWatchdog⟩, [Event.devClose 1 false]) :=
  claim_C4 wC4 envNull cfgOff rfl rfl
    (fun s => ⟨s, rfl⟩) (fun _ => ⟨25, rfl⟩) (fun s => ⟨s, rfl⟩)

theorem c3_body (w : Watchdog) (env : Env) (c : WatchdogConfig)
    (hA : w.active = true)
    (hacm : w.active_config.mode ≠ .off)
    (hdrv : c.driver ≠ w.active_config.driver ∨
            c.driver_config ≠ w.active_config.driver_config)
    (hslack : ¬ c.timing_slack < 0)
    (hk : ∀ s, ∃ s2, w.impl.beh.keepaliveOp s = Except.ok s2)
    (hg : ∀ s, ∃ t, w.impl.beh.get_timeoutOp s = Except.ok t)
    (hcl : ∀ s, ∃ s2, w.impl.beh.closeOp s = Except.ok s2) :
    ∃ s2 rest,
      (Watchdog.keepalive { w with config := c } env).2 =
        Event.devKeepalive w.impl.tag w.impl.is_null ::
          Event.branchDriverChange ::
            ((if (w.impl.beh.is_running s2 && !w.impl.beh.can_be_disabled s2) = true then
                [Event.devKeepalive w.impl.tag w.impl.is_null,
                 Event.devGetTimeout w.impl.tag w.impl.is_null,
                 Event.log .warning .rebootSoon,
                 Event.devClose w.impl.tag w.impl.is_null]
              else [Event.devClose w.impl.tag w.impl.is_null]) ++
              Event.construct c.driver ::
                Event.devOpen (env.factory c.driver c.driver_config).tag
                    (env.factory c.driver c.driver_config).is_null :: rest) ∧
      ∀ e ∈ rest,
        e.isConstructEv = false ∧ e.isBranchMarker = false ∧ e.isOpenDev = false ∧
          (e.devTag = none ∨ e.devTag = some (env.factory c.driver c.driver_config).tag ∨
            e.devTag = some 0) := by
  have hne : c ≠ w.active_config := by
    intro heq
    rcases hdrv with h | h
    · exact h (by rw [heq])
    · exact h (by rw [heq])
  obtain ⟨s2, hs2⟩ := hk w.impl.st
  have hkc : w.impl.keepaliveCall = Except.ok { w.impl with st := s2 } := by
    unfold Device.keepaliveCall
    rw [hs2]
    rfl
  refine ⟨s2, ?_⟩
  unfold Watchdog.keepalive Watchdog.keepaliveBody
  dsimp only
  rw [if_pos (show ({ w with config := c } : Watchdog).active = true from hA), hkc]
  dsimp only [Except.map]
  rw [if_pos (show (⟨c, w.active_config, w.active, { w.impl with st := s2 }⟩ : Watchdog).active
        = true ∧ (⟨c, w.active_config, w.active, { w.impl with st := s2 }⟩ : Watchdog).config
        ≠ (⟨c, w.active_config, w.active, { w.impl with st := s2 }⟩ : Watchdog).active_config
      from ⟨hA, hne⟩)]
  rw [reconcileA_no ⟨c, w.active_config, w.active, ⟨w.impl.tag, w.impl.is_null, w.impl.beh, s2⟩⟩
    env (fun hcon => hacm hcon.2)]
  dsimp only
  unfold Watchdog.reconcileB
  rw [if_pos (show (⟨c, w.active_config, w.active, { w.impl with st := s2 }⟩ : Watchdog).config.driver
        ≠ (⟨c, w.active_config, w.active, { w.impl with st := s2 }⟩ : Watchdog).active_config.driver
        ∨ (⟨c, w.active_config, w.active, { w.impl with st := s2 }⟩ : Watchdog).config.driver_config
        ≠ (⟨c, w.active_config, w.active, { w.impl with st := s2 }⟩ : Watchdog).active_config.driver_config
      from hdrv)]
  dsimp only
  set w1 : Watchdog :=
    ⟨c, w.active_config, w.active, ⟨w.impl.tag, w.impl.is_null, w.impl.beh, s2⟩⟩ with hw1
  set ST : Watchdog :=
    { config := (w1._disable).1.config, active_config := (w1._disable).1.active_config,
      active := (w1._disable).1.active, impl := (c.get_impl env).1 } with hST
  have htr := disable_trace_run w1 hk hg hcl
  rw [htr]
  have hsl2 : ¬ ST.config.timing_slack < 0 := by
    have hd1 := (disable_fields w1).1
    rw [show ST.config = (w1._disable).1.config from rfl, hd1]
    exact hslack
  obtain ⟨rest, hre, hrest⟩ := activate_trace_nonneg ST hsl2
  rw [hre]
  have haf := activate_fields ST
  rw [reconcileC_no (Watchdog._activate ST).2.1 (by rw [haf.2.2, haf.1]; simp)]
  refine ⟨rest, ?_, ?_⟩
  · simp only [hw1, hST, WatchdogConfig.get_impl, Device.is_running, Device.can_be_disabled]
    simp [List.append_assoc]
  · intro e he
    obtain ⟨h1, h2, h3, h4⟩ := hrest e he
    exact ⟨h1, h2, h3, h4⟩

/-- C3: a `reload_config` while active with a non-Off snapshot whose driver or
driver configuration changed leaves the owned device, `active_config` and the
`active` flag unchanged (only `config` is replaced) and performs no device
operation; the switch happens at the next `keepalive()`, whose trace contains
exactly one close of the old device, exactly one construction, and exactly
one open of the newly selected device, in that order.  Hypotheses: the
previously applied snapshot was not Off, the new snapshot has nonnegative
timing slack, device identities are distinct (old device real, new object
distinct from old and from the Null tag), and the old device's operations
succeed. -/
theorem claim_C3 (w : Watchdog) (env : Env) (c : WatchdogConfig)
    (hA : w.active = true)
    (hm : c.mode ≠ .off)
    (hacm : w.active_config.mode ≠ .off)
    (hdrv : c.driver ≠ w.active_config.driver ∨
            c.driver_config ≠ w.active_config.driver_config)
    (hslack : ¬ c.timing_slack < 0)
    (htag0 : w.impl.tag ≠ 0)
    (hnewold : (env.factory c.driver c.driver_config).tag ≠ w.impl.tag)
    (hk : ∀ s, ∃ s2, w.impl.beh.keepaliveOp s = Except.ok s2)
    (hg : ∀ s, ∃ t, w.impl.beh.get_timeoutOp s = Except.ok t)
    (hcl : ∀ s, ∃ s2, w.impl.beh.closeOp s = Except.ok s2) :
    w.reload_config env c = ({ w with config := c }, []) ∧
    ((((Watchdog.keepalive { w with config := c } env).2).filter
        (Event.isCloseWithTag w.impl.tag)).length = 1 ∧
     (((Watchdog.keepalive { w with config := c } env).2).filter
        Event.isConstructEv).length = 1 ∧
     (((Watchdog.keepalive { w with config := c } env).2).filter
        (Event.isOpenWithTag (env.factory c.driver c.driver_config).tag)).length = 1 ∧
     ∃ t1 t2 t3 t4, (Watchdog.keepalive { w with config := c } env).2 =
       t1 ++ Event.devClose w.impl.tag w.impl.is_null ::
         (t2 ++ Event.construct c.driver ::
           (t3 ++ Event.devOpen (env.factory c.driver c.driver_config).tag
             (env.factory c.driver c.driver_config).is_null :: t4))) := by
  constructor
  · unfold Watchdog.reload_config
    dsimp only
    rw [if_neg (show ¬ ({ w with config := c } : Watchdog).config.mode = Mode.off from hm)]
    dsimp only
    rw [if_neg (show ¬ (!({ w with config := c } : Watchdog).active) = true by
      simp [hA])]
  · obtain ⟨s2, rest, htr, hrest⟩ := c3_body w env c hA hacm hdrv hslack hk hg hcl
    rw [htr]
    have hrest_close : rest.filter (Event.isCloseWithTag w.impl.tag) = [] := by
      refine List.filter_eq_nil_iff.mpr fun e he hp => ?_
      have hd := closeTag_devTag hp
      rcases (hrest e he).2.2.2 with h | h | h
      · rw [hd] at h; cases h
      · rw [hd] at h
        exact hnewold (Option.some.inj h).symm
      · rw [hd] at h
        exact htag0 (Option.some.inj h)
    have hrest_con : rest.filter Event.isConstructEv = [] := by
      refine List.filter_eq_nil_iff.mpr fun e he hp => ?_
      rw [(hrest e he).1] at hp
      cases hp
    have hrest_open :
        rest.filter (Event.isOpenWithTag (env.factory c.driver c.driver_config).tag) = [] := by
      refine List.filter_eq_nil_iff.mpr fun e he hp => ?_
      obtain ⟨ho, -⟩ := openTag_isOpen hp
      rw [(hrest e he).2.2.1] at ho
      cases ho
    by_cases hrb : (w.impl.beh.is_running s2 && !w.impl.beh.can_be_disabled s2) = true
    all_goals simp only [hrb, if_true, if_false, Bool.false_eq_true, ite_true, ite_false]
    case pos =>
      refine ⟨?_, ?_, ?_, ?_⟩
      · simp [List.filter_cons, List.filter_append, Event.isCloseWithTag,
          Event.isConstructEv, Event.isOpenWithTag, hrest_close, htag0, hnewold,
          Ne.symm htag0]
      · simp [List.filter_cons, List.filter_append, Event.isCloseWithTag,
          Event.isConstructEv, Event.isOpenWithTag, hrest_con]
      · simp [List.filter_cons, List.filter_append, Event.isCloseWithTag,
          Event.isConstructEv, Event.isOpenWithTag, hrest_open,
          fun h => hnewold (h : (env.factory c.driver c.driver_config).tag = w.impl.tag)]
      · exact ⟨[Event.devKeepalive w.impl.tag w.impl.is_null, Event.branchDriverChange,
          Event.devKeepalive w.impl.tag w.impl.is_null,
          Event.devGetTimeout w.impl.tag w.impl.is_null,
          Event.log .warning .rebootSoon], [], [], rest, by simp⟩
    case neg =>
      refine ⟨?_, ?_, ?_, ?_⟩
      · simp [List.filter_cons, List.filter_append, Event.isCloseWithTag,
          Event.isConstructEv, Event.isOpenWithTag, hrest_close, htag0, hnewold,
          Ne.symm htag0]
      · simp [List.filter_cons, List.filter_append, Event.isCloseWithTag,
          Event.isConstructEv, Event.isOpenWithTag, hrest_con]
      · simp [List.filter_cons, List.filter_append, Event.isCloseWithTag,
          Event.isConstructEv, Event.isOpenWithTag, hrest_open,
          fun h => hnewold (h : (env.factory c.driver c.driver_config).tag = w.impl.tag)]
      · exact ⟨[Event.devKeepalive w.impl.tag w.impl.is_null, Event.branchDriverChange],
          [], [], rest, by simp⟩

/-- Witness for C3: after a driver change while active, the next keepalive's
trace has exactly one close of the old device, one construction and one open
of the new device. -/
theorem claim_C3_witness :
    wC4.reload_config envReal cfgOther = ({ wC4 with config := cfgOther }, []) ∧
    (((Watchdog.keepalive { wC4 with config := cfgOther } envReal).2).filter
        (Event.isCloseWithTag wC4.impl.tag)).length = 1 ∧
    (((Watchdog.keepalive { wC4 with config := cfgOther } envReal).2).filter
        Event.isConstructEv).length = 1 ∧
    (((Watchdog.keepalive { wC4 with config := cfgOther } envReal).2).filter
        (Event.isOpenWithTag (envReal.factory cfgOther.driver cfgOther.driver_config).tag)).length
      = 1 :=
  have h := claim_C3 wC4 envReal cfgOther rfl (by decide) (by decide)
    (Or.inl (by decide)) (by decide) (by decide) (by decide)
    (fun s => ⟨s, rfl⟩) (fun _ => ⟨25, rfl⟩) (fun s => ⟨s, rfl⟩)
  ⟨h.1, h.2.1, h.2.2.1, h.2.2.2.1⟩

end PatroniWatchdog
